import Mathlib

set_option maxRecDepth 8000

/-!
Verification of the VitalGuard secure-channel stack
(`vitalguard-software/security/quantum_crypto.py` and
`vitalguard-software/security/bb84_qkd.py`).

Modelling conventions:
* Byte strings are `List Nat` (each entry one byte).  Base64 transport
  encoding (`b64encode`/`b64decode`) is a bijection between raw bytes and
  their encodings and is elided: all operations act on decoded bytes.
* The concrete hash algorithms (SHA3-256, SHA3-512, HMAC-SHA3) are not
  load-bearing; functions are parametrised by a `HashModel` carrying the
  four primitives the code uses.  Properties that need the fixed digest
  sizes take them as explicit hypotheses (`H256Len`, `H512Len`).
* Python exceptions are modelled with `Except PyError`; a Python function
  that cannot raise is modelled as a total function.
* The comparison `error_rate > 0.11` is modelled exactly over `Rat`:
  for the sample sizes reachable here (far below 2^50) the IEEE-double
  comparison in the source agrees with the exact rational comparison.
-/

/-- The hash primitives used by the source: SHA3-256, SHA3-512,
HMAC-SHA3-256 and HMAC-SHA3-512 (key, message). -/
structure HashModel where
  h256 : List Nat → List Nat
  h512 : List Nat → List Nat
  mac256 : List Nat → List Nat → List Nat
  mac512 : List Nat → List Nat → List Nat

/-- SHA3-256 returns 32 bytes. -/
def H256Len (H : HashModel) : Prop := ∀ x, (H.h256 x).length = 32

/-- SHA3-512 returns 64 bytes. -/
def H512Len (H : HashModel) : Prop := ∀ x, (H.h512 x).length = 64

def strBytes (s : String) : List Nat := s.toList.map Char.toNat

-- Domain-separation tags appearing literally in the source.
def kyberPublicTag : List Nat := strBytes "kyber_public"
def kyberSharedTag : List Nat := strBytes "kyber_shared_secret"
def kyberCiphertextTag : List Nat := strBytes "kyber_ciphertext"
def encKeyTag : List Nat := strBytes "enc_key"
def macKeyTag : List Nat := strBytes "mac_key"
def dilithiumPublicTag : List Nat := strBytes "dilithium_public"
def qkdPaTag : List Nat := strBytes "vitalguard_qkd_pa"

-- A small executable stand-in hash model, used to evaluate the
-- development on concrete inputs.  `tagFold` is injective enough for the
-- concrete separations needed below (251 is prime, 31 is a unit mod 251).
def tagFold (x : List Nat) : Nat := (x.foldl (fun a b => a * 31 + b + 1) 7) % 251

def dummyHash (w : Nat) (x : List Nat) : List Nat := List.replicate w (tagFold x)

def dummyModel : HashModel :=
  { h256 := dummyHash 32
    h512 := dummyHash 64
    mac256 := fun k m => dummyHash 32 (k ++ m)
    mac512 := fun k m => dummyHash 64 (k ++ m) }

/-- Python exceptions that the modelled code can actually raise. -/
inductive PyError where
  | valueError    -- e.g. random.sample with sample larger than population
  | runtimeError  -- "Handshake not completed"
  | typeError     -- subscripting None
deriving DecidableEq, Repr

-- ============================================
-- QuantumKEM (quantum_crypto.py lines 17-106)
-- ============================================

structure KemKeyPair where
  public_key : List Nat
  private_key : List Nat
deriving DecidableEq, Repr

namespace QuantumKEM

/-- Embeds `keygen`: private key is the random 64-byte seed (passed explicitly),
public key is `sha3_512(seed || "kyber_public")`. -/
def keygen (H : HashModel) (private_seed : List Nat) : KemKeyPair :=
  { public_key := H.h512 (private_seed ++ kyberPublicTag)
    private_key := private_seed }

/-- Embeds `encapsulate`: with the random 32-byte `ephemeral` passed explicitly;
returns (ciphertext, shared_secret).
`shared_secret = sha3_256(pk || e || "kyber_shared_secret")`,
`ciphertext = sha3_512(pk || e || "kyber_ciphertext") || e`. -/
def encapsulate (H : HashModel) (public_key ephemeral : List Nat) :
    List Nat × List Nat :=
  (H.h512 (public_key ++ ephemeral ++ kyberCiphertextTag) ++ ephemeral,
   H.h256 (public_key ++ ephemeral ++ kyberSharedTag))

/-- Embeds `decapsulate`: `ephemeral = ct_raw[64:]` (Python slicing is total and
never raises, also when `ct_raw` is shorter than 64 bytes);
recompute the public key and the shared secret. -/
def decapsulate (H : HashModel) (private_seed ct_raw : List Nat) : List Nat :=
  let ephemeral := ct_raw.drop 64
  let public_key := H.h512 (private_seed ++ kyberPublicTag)
  H.h256 (public_key ++ ephemeral ++ kyberSharedTag)

end QuantumKEM

-- ============================================
-- QuantumCipher (quantum_crypto.py lines 113-199)
-- ============================================

/-- Embeds `struct.pack(">I", c)`: 4-byte big-endian encoding. -/
def pack32 (c : Nat) : List Nat :=
  [c / 16777216 % 256, c / 65536 % 256, c / 256 % 256, c % 256]

/-- The envelope returned by `QuantumCipher.encrypt`. -/
structure AEADEnvelope where
  ciphertext : List Nat
  nonce : List Nat
  mac : List Nat
  timestamp : Nat
deriving DecidableEq, Repr

namespace QuantumCipher

/-- The `while len(stream) < length` loop of `_key_stream`, with explicit
fuel.  With 32-byte blocks the fuel `length + 1` supplied by `keyStream`
is never exhausted. -/
def keyStreamAux (H : HashModel) (key nonce : List Nat) (length : Nat) :
    Nat → Nat → List Nat → List Nat
  | 0, _, stream => stream.take length
  | Nat.succ fuel, counter, stream =>
    if stream.length < length then
      keyStreamAux H key nonce length fuel (counter + 1)
        (stream ++ H.h256 (key ++ nonce ++ pack32 counter))
    else stream.take length

/-- Embeds `_key_stream(key, nonce, length)`. -/
def keyStream (H : HashModel) (key nonce : List Nat) (length : Nat) : List Nat :=
  keyStreamAux H key nonce length (length + 1) 0 []

/-- Embeds `bytes(a ^ b for a, b in zip(xs, ys))`. -/
def zipXor (xs ys : List Nat) : List Nat := List.zipWith Nat.xor xs ys

/-- Embeds `encrypt(plaintext, shared_secret)`; the random 16-byte nonce and the
wall-clock timestamp are passed explicitly. -/
def encrypt (H : HashModel) (plaintext shared_secret nonce : List Nat)
    (ts : Nat) : AEADEnvelope :=
  let enc_key := H.h256 (shared_secret ++ encKeyTag)
  let mac_key := H.h256 (shared_secret ++ macKeyTag)
  let ks := keyStream H enc_key nonce plaintext.length
  let ciphertext := zipXor plaintext ks
  { ciphertext := ciphertext
    nonce := nonce
    mac := H.mac256 mac_key (nonce ++ ciphertext)
    timestamp := ts }

/-- Embeds `decrypt(encrypted, shared_secret)`: verify the MAC first and return
`none` on mismatch; the keystream and XOR sit inside the success branch,
matching the early `return None` of the source. -/
def decrypt (H : HashModel) (env : AEADEnvelope) (shared_secret : List Nat) :
    Option (List Nat) :=
  let enc_key := H.h256 (shared_secret ++ encKeyTag)
  let mac_key := H.h256 (shared_secret ++ macKeyTag)
  let expected_mac := H.mac256 mac_key (env.nonce ++ env.ciphertext)
  if env.mac = expected_mac then
    some (zipXor env.ciphertext (keyStream H enc_key env.nonce env.ciphertext.length))
  else
    none

end QuantumCipher

-- ============================================
-- QuantumSignature (quantum_crypto.py lines 206-237)
-- ============================================

structure SigKeyPair where
  signing_key : List Nat
  verify_key : List Nat
deriving DecidableEq, Repr

namespace QuantumSignature

/-- Embeds `keygen`: signing key is the 64-byte random seed (passed explicitly);
verify key is `sha3_512(sk || "dilithium_public")`. -/
def keygen (H : HashModel) (private_key : List Nat) : SigKeyPair :=
  { signing_key := private_key
    verify_key := H.h512 (private_key ++ dilithiumPublicTag) }

/-- Embeds `sign(data, signing_key)`: `hmac.new(sk, data, sha3_512)`. -/
def sign (H : HashModel) (data signing_key : List Nat) : List Nat :=
  H.mac512 signing_key data

/-- Embeds `verify(data, signature, verify_key, signing_key)`: recompute the HMAC
and compare with `hmac.compare_digest` (byte equality).  The verify key is
accepted but unused, exactly as in the source. -/
def verify (H : HashModel) (data signature verify_key signing_key : List Nat) :
    Bool :=
  signature == H.mac512 signing_key data

end QuantumSignature

-- ============================================
-- SecureChannel (quantum_crypto.py lines 244-356)
-- ============================================

/-- Serialisation of the patient payload: `json.dumps(...).encode` and
`json.loads(...)`; `loads` returns `none` where Python would raise on
malformed JSON. -/
structure Codec (α : Type) where
  dumps : α → List Nat
  loads : List Nat → Option α

/-- The mutable fields of a `SecureChannel` instance. -/
structure Channel where
  kem_keys : Option KemKeyPair
  sig_keys : Option SigKeyPair
  shared_secret : Option (List Nat)
  session_id : Option (List Nat)
deriving DecidableEq, Repr

/-- Python truthiness of an optional byte string: `None` and `b""` are
falsy (the source guards with `if not self.shared_secret`). -/
def isTruthy : Option (List Nat) → Bool
  | none => false
  | some s => !s.isEmpty

structure ServerHello where
  public_key : List Nat
  verify_key : List Nat
  session_id : List Nat
deriving DecidableEq, Repr

structure ClientHello where
  ciphertext : List Nat
  session_id : List Nat
deriving DecidableEq, Repr

/-- The envelope returned by `encrypt_patient_data`. -/
structure SignedEnvelope where
  encrypted : AEADEnvelope
  signature : Option (List Nat)
  session_id : Option (List Nat)
  data_type : String
  pqc_version : String
deriving DecidableEq, Repr

namespace SecureChannel

/-- Embeds `SecureChannel.__init__`: all fields start as `None`. -/
def emptyChannel : Channel :=
  { kem_keys := none, sig_keys := none, shared_secret := none, session_id := none }

/-- Embeds `init_server()`: the three random draws (KEM seed, signature seed,
16-byte session id) are passed explicitly.  Returns the hello record and
the updated channel. -/
def initServer (H : HashModel) (ch : Channel)
    (kemSeed sigSeed sess : List Nat) : ServerHello × Channel :=
  let kem := QuantumKEM.keygen H kemSeed
  let sig := QuantumSignature.keygen H sigSeed
  ({ public_key := kem.public_key, verify_key := sig.verify_key, session_id := sess },
   { ch with kem_keys := some kem, sig_keys := some sig, session_id := some sess })

/-- Embeds `init_client(server_public_key)`: the ephemeral and the session id are
passed explicitly. -/
def initClient (H : HashModel) (ch : Channel)
    (server_public_key ephemeral sess : List Nat) : ClientHello × Channel :=
  let r := QuantumKEM.encapsulate H server_public_key ephemeral
  ({ ciphertext := r.1, session_id := sess },
   { ch with shared_secret := some r.2, session_id := some sess })

/-- Embeds `complete_handshake(ciphertext)`: subscripting `self.kem_keys` when it
is `None` raises `TypeError`; otherwise decapsulate and store the secret. -/
def completeHandshake (H : HashModel) (ch : Channel) (ciphertext : List Nat) :
    Except PyError Channel :=
  match ch.kem_keys with
  | none => .error .typeError
  | some kem =>
    .ok { ch with shared_secret := some (QuantumKEM.decapsulate H kem.private_key ciphertext) }

/-- Embeds `encrypt_patient_data(data)`: guard on truthy `shared_secret`
(RuntimeError otherwise), serialise, AEAD-encrypt, sign when `sig_keys`
is truthy, wrap.  The method assigns no `self` field, so the channel
component of the result is the input channel. -/
def encryptPatientData {α : Type} (H : HashModel) (C : Codec α) (ch : Channel)
    (data : α) (nonce : List Nat) (ts : Nat) :
    Except PyError SignedEnvelope × Channel :=
  if isTruthy ch.shared_secret = false then
    (.error .runtimeError, ch)
  else
    let plaintext := C.dumps data
    let encrypted := QuantumCipher.encrypt H plaintext (ch.shared_secret.getD []) nonce ts
    let signature :=
      match ch.sig_keys with
      | none => none
      | some sig => some (QuantumSignature.sign H plaintext sig.signing_key)
    (.ok { encrypted := encrypted
           signature := signature
           session_id := ch.session_id
           data_type := "patient_monitoring"
           pqc_version := "1.0" },
     ch)

/-- Embeds `decrypt_patient_data(envelope)`: guard on truthy `shared_secret`,
AEAD-decrypt `envelope["encrypted"]` only (no other envelope field is
read, and the signature is never verified), return `none` on MAC failure,
else `json.loads` (raising, i.e. `.error`, on malformed JSON).  No `self`
field is assigned. -/
def decryptPatientData {α : Type} (H : HashModel) (C : Codec α) (ch : Channel)
    (envelope : SignedEnvelope) : Except PyError (Option α) × Channel :=
  if isTruthy ch.shared_secret = false then
    (.error .runtimeError, ch)
  else
    match QuantumCipher.decrypt H envelope.encrypted (ch.shared_secret.getD []) with
    | none => (.ok none, ch)
    | some plaintext =>
      match C.loads plaintext with
      | none => (.error .valueError, ch)
      | some d => (.ok (some d), ch)

end SecureChannel

/-- Identity codec on raw byte lists, used for concrete evaluation. -/
def natCodec : Codec (List Nat) := { dumps := id, loads := some }

-- ============================================
-- BB84KeyExchange (bb84_qkd.py)
-- ============================================

/-- Measurement basis: `"Z"` or `"X"`. -/
inductive QBasis where
  | Z
  | X
deriving DecidableEq, Repr

/-- All random draws of one protocol run, made explicit:
`aliceBit`/`aliceBasis` feed `alice_prepare`, `bobBasis` feeds
`bob_measure`, `bobResult` is the stream of AerSimulator measurement
outcomes (the simulator is an external library; its outcomes are inputs
of the model), `sample1` is the list drawn by `random.sample` inside
`estimate_error` and `sample2` the one drawn inside the
privacy-amplification step of `run_protocol`. -/
structure QKDRand where
  aliceBit : Nat → Nat
  aliceBasis : Nat → QBasis
  bobBasis : Nat → QBasis
  bobResult : Nat → Nat
  sample1 : List Nat
  sample2 : List Nat

/-- Embeds `BB84KeyExchange.__init__(n_qubits, noise_probability)`: the
constructor stores its parameters unconditionally — it performs no
validation of any kind (in particular none for `n_qubits = 0`). -/
structure BB84Config where
  n_qubits : Nat
  noise_prob : Rat
deriving DecidableEq, Repr

def bb84Init (n_qubits : Nat) (noise_probability : Rat) : BB84Config :=
  { n_qubits := n_qubits, noise_prob := noise_probability }

/-- The result dict of `estimate_error`.  `error_rate` is kept exact
(the source additionally rounds it to 4 decimals for the returned dict;
`self.error_rate` and the verdict use the unrounded value). -/
structure ErrorInfo where
  error_rate : Rat
  sample_size : Nat
  errors_found : Nat
  eavesdropper_detected : Bool
  remaining_key_bits : Nat
  secure : Bool
deriving DecidableEq, Repr

namespace BB84

/-- Embeds `random.sample(range(n), k)` with the drawn index list supplied as
input: raises `ValueError` when the sample is larger than the
population. -/
def randomSample (n k : Nat) (draw : List Nat) : Except PyError (List Nat) :=
  if n < k then .error .valueError else .ok draw

/-- Embeds `sift_keys`: keep the positions where the bases of Alice and Bob agree.
Returns (alice_sifted, bob_sifted). -/
def siftKeys (aliceBits : List Nat) (aliceBases bobBases : List QBasis)
    (bobResults : List Nat) (n : Nat) : List Nat × List Nat :=
  let matched := (List.range n).filter
    (fun i => aliceBases.getD i QBasis.Z = bobBases.getD i QBasis.Z)
  (matched.map (fun i => aliceBits.getD i 0),
   matched.map (fun i => bobResults.getD i 0))

/-- Embeds `estimate_error(alice_sifted, bob_sifted)` with the default
`sample_fraction = 0.2`: `sample_size = max(1, int(n * 0.2)) = max 1 (n / 5)`
(for population sizes below 2^50 the float product truncates exactly to
the rational floor), count mismatches on the sampled indices,
`error_rate = errors / sample_size` (the exact rational quotient,
written `mkRat errors sample_size`), verdict `error_rate > 0.11`
(`0.11 = mkRat 11 100` exactly),
and the complement of the sample is what the returned
`remaining_key_bits` counts. -/
def estimateError (alice_sifted bob_sifted : List Nat) (draw : List Nat) :
    Except PyError ErrorInfo :=
  let n := alice_sifted.length
  let sample_size := max 1 (n / 5)
  match randomSample n sample_size draw with
  | .error e => .error e
  | .ok indices =>
    let errors := (indices.filter
      (fun i => alice_sifted.getD i 0 ≠ bob_sifted.getD i 0)).length
    let rate : Rat := if sample_size > 0 then mkRat errors sample_size else 0
    let detected : Bool := decide (rate > mkRat 11 100)
    let remaining := ((List.range n).filter (fun i => i ∉ indices)).map
      (fun i => alice_sifted.getD i 0)
    .ok { error_rate := rate
          sample_size := sample_size
          errors_found := errors
          eavesdropper_detected := detected
          remaining_key_bits := remaining.length
          secure := !detected }

/-- Embeds `str(b)` for a bit, encoded to a byte: ASCII `"0"`/`"1"`. -/
def bitChar (b : Nat) : Nat := 48 + b

/-- Embeds `privacy_amplification(key_bits)`: join the bits into an ASCII string
and hash with `sha3_256(raw || "vitalguard_qkd_pa")`. -/
def privacyAmplification (H : HashModel) (key_bits : List Nat) : List Nat :=
  H.h256 (key_bits.map bitChar ++ qkdPaTag)

/-- The bits `estimate_error` itself left over: the sifted bits at the
complement of the error-estimation sample (this is the subset the spec
says gets hashed). -/
def estimationComplementBits (alice_sifted sample : List Nat) : List Nat :=
  ((List.range alice_sifted.length).filter (fun i => i ∉ sample)).map
    (fun i => alice_sifted.getD i 0)

/-- The privacy-amplification step inside `run_protocol`: when no
eavesdropper was detected, draw a FRESH `random.sample` (`sample2`,
independent of the one used in `estimate_error`), drop those positions
and hash the rest. -/
def finalKeyStep (H : HashModel) (alice_sifted : List Nat) (info : ErrorInfo)
    (sample2 : List Nat) : Except PyError (Option (List Nat)) :=
  if info.eavesdropper_detected then .ok none
  else
    let m := alice_sifted.length
    match randomSample m (max 1 (m / 5)) sample2 with
    | .error e => .error e
    | .ok idx =>
      .ok (some (privacyAmplification H (estimationComplementBits alice_sifted idx)))

/-- The result dict of `run_protocol`.  `protocol` ("BB84") and
`elapsed_sec` (wall clock) are constants/display-only and elided;
`sift_rate` is kept exact where the source rounds it for display
(`Rat` division is total, with the unreachable `n = 0` denominator
mapped to 0). -/
structure ProtocolResult where
  n_qubits : Nat
  noise_probability : Rat
  sifted_key_length : Nat
  sift_rate : Rat
  error_estimation : ErrorInfo
  final_key_hex : Option (List Nat)
  final_key_bits : Nat
  secure : Bool
deriving DecidableEq, Repr

/-- Embeds `run_protocol()`: prepare (the noise flip acts on simulated qubits and
is therefore absorbed, together with measurement collapse, into the
`bobResult` outcome stream), measure, sift, estimate the error on
`sample1`, then — only if no eavesdropper was detected — hash the
complement of the freshly drawn `sample2`. -/
def runProtocol (H : HashModel) (n : Nat) (noise : Rat) (r : QKDRand) :
    Except PyError ProtocolResult :=
  let aliceBits := (List.range n).map r.aliceBit
  let aliceBases := (List.range n).map r.aliceBasis
  let bobBases := (List.range n).map r.bobBasis
  let bobResults := (List.range n).map r.bobResult
  let sifted := siftKeys aliceBits aliceBases bobBases bobResults n
  match estimateError sifted.1 sifted.2 r.sample1 with
  | .error e => .error e
  | .ok info =>
    match finalKeyStep H sifted.1 info r.sample2 with
    | .error e => .error e
    | .ok fk =>
      .ok { n_qubits := n
            noise_probability := noise
            sifted_key_length := sifted.1.length
            sift_rate := mkRat sifted.1.length n
            error_estimation := info
            final_key_hex := fk
            final_key_bits := if fk.isSome then 256 else 0
            secure := !info.eavesdropper_detected }

/-- Embeds `qkd_key_exchange(n_qubits, noise)`: run the protocol and return the
key only when `result["secure"]` and `result["final_key_hex"]` are both
truthy (hex encoding of the 32-byte key is elided as a bijection). -/
def qkdKeyExchange (H : HashModel) (n : Nat) (noise : Rat) (r : QKDRand) :
    Except PyError (Option (List Nat)) :=
  match runProtocol H n noise r with
  | .error e => .error e
  | .ok res =>
    .ok (if res.secure && isTruthy res.final_key_hex then res.final_key_hex else none)

end BB84

/-- The handshake of the module docstring: server `init_server`, client
`init_client` on the server public key, server `complete_handshake` on
the client ciphertext.  Returns (server channel after handshake,
client channel). -/
def handshakeDemo (H : HashModel) (kemSeed sigSeed sessA eph sessB : List Nat) :
    Except PyError Channel × Channel :=
  let srv := SecureChannel.initServer H SecureChannel.emptyChannel kemSeed sigSeed sessA
  let cli := SecureChannel.initClient H SecureChannel.emptyChannel srv.1.public_key eph sessB
  (SecureChannel.completeHandshake H srv.2 cli.1.ciphertext, cli.2)

deriving instance DecidableEq for Except

-- Concrete randomness for evaluating the protocol on small runs.

/-- One qubit, matching Z bases, Alice sends 0 but the measured outcome
is 1: the single sampled position disagrees, so the estimated error rate
is 1. -/
def randDetect : QKDRand :=
  { aliceBit := fun _ => 0
    aliceBasis := fun _ => QBasis.Z
    bobBasis := fun _ => QBasis.Z
    bobResult := fun _ => 1
    sample1 := [0]
    sample2 := [0] }

/-- The result of `runProtocol` with one qubit under `randDetect`. -/
def resDetect : BB84.ProtocolResult :=
  { n_qubits := 1, noise_probability := 0, sifted_key_length := 1, sift_rate := 1,
    error_estimation := { error_rate := 1, sample_size := 1, errors_found := 1,
                          eavesdropper_detected := true, remaining_key_bits := 0,
                          secure := false },
    final_key_hex := none, final_key_bits := 0, secure := false }

/-- Two qubits, all bases Z, the Alice bits `[0, 1]` received verbatim, so
no error is detected; the error-estimation step samples index 0 while the
privacy-amplification step freshly samples index 1. -/
def randSplit : QKDRand :=
  { aliceBit := fun i => i % 2
    aliceBasis := fun _ => QBasis.Z
    bobBasis := fun _ => QBasis.Z
    bobResult := fun i => i % 2
    sample1 := [0]
    sample2 := [1] }

/-- Randomness for the degenerate zero-qubit run (the sample lists are
never consulted: `random.sample` fails before using them). -/
def randEmpty : QKDRand :=
  { aliceBit := fun _ => 0
    aliceBasis := fun _ => QBasis.Z
    bobBasis := fun _ => QBasis.Z
    bobResult := fun _ => 0
    sample1 := []
    sample2 := [] }

-- ============================================
-- Helper lemmas
-- ============================================

theorem dummyH256Len : H256Len dummyModel := by
  intro x; simp [dummyModel, dummyHash]

theorem dummyH512Len : H512Len dummyModel := by
  intro x; simp [dummyModel, dummyHash]

theorem estimateErrorDetectedIff (a b d : List Nat) (info : ErrorInfo)
    (h : BB84.estimateError a b d = Except.ok info) :
    info.eavesdropper_detected = true ↔ info.error_rate > mkRat 11 100 := by
  simp only [BB84.estimateError, BB84.randomSample] at h
  split at h
  · simp at h
  · injection h with h
    subst h
    simp

theorem kemDropEph (H : HashModel) (hH : H512Len H) (x e : List Nat) :
    (H.h512 x ++ e).drop 64 = e := by
  have h := hH x
  rw [← h]
  exact List.drop_left _ _

theorem keyStreamAuxLen (H : HashModel) (hH : H256Len H) (key nonce : List Nat)
    (L : Nat) :
    ∀ fuel counter stream, L ≤ stream.length + 32 * fuel →
      (QuantumCipher.keyStreamAux H key nonce L fuel counter stream).length = L := by
  intro fuel
  induction fuel with
  | zero =>
    intro counter stream hb
    simp only [QuantumCipher.keyStreamAux, List.length_take]
    omega
  | succ f ih =>
    intro counter stream hb
    rw [QuantumCipher.keyStreamAux]
    split
    · apply ih
      have hblock := hH (key ++ nonce ++ pack32 counter)
      simp only [List.length_append, hblock]
      omega
    · simp only [List.length_take]
      omega

theorem keyStreamLen (H : HashModel) (hH : H256Len H) (key nonce : List Nat)
    (L : Nat) : (QuantumCipher.keyStream H key nonce L).length = L := by
  apply keyStreamAuxLen H hH
  simp only [List.length_nil]
  omega

theorem zipXorCancel (m : List Nat) :
    ∀ ks : List Nat, m.length ≤ ks.length →
      QuantumCipher.zipXor (QuantumCipher.zipXor m ks) ks = m := by
  induction m with
  | nil => intro ks _; simp [QuantumCipher.zipXor]
  | cons a as ih =>
    intro ks hlen
    cases ks with
    | nil => simp at hlen
    | cons k kt =>
      simp only [QuantumCipher.zipXor, List.zipWith_cons_cons] at *
      have h1 : Nat.xor (Nat.xor a k) k = a := Nat.xor_cancel_right k a
      rw [h1, ih kt (by simpa using hlen)]

-- ============================================
-- Claim theorems
-- ============================================

/-- C2: AEAD round-trip — for every byte string `m` (including the empty
string), every shared secret `k`, every nonce the encrypt call may draw,
and every timestamp, `QuantumCipher.decrypt (QuantumCipher.encrypt m k
nonce ts) k` returns `some m`, never the failure value `none`.  The only
property of SHA3-256 used is its 32-byte output length. -/
theorem c2_aead_round_trip (H : HashModel) (hH : H256Len H)
    (m k nonce : List Nat) (ts : Nat) :
    QuantumCipher.decrypt H (QuantumCipher.encrypt H m k nonce ts) k = some m := by
  have hks : (QuantumCipher.keyStream H (H.h256 (k ++ encKeyTag)) nonce m.length).length
      = m.length := keyStreamLen H hH _ _ _
  have hct : (QuantumCipher.zipXor m
      (QuantumCipher.keyStream H (H.h256 (k ++ encKeyTag)) nonce m.length)).length
      = m.length := by
    simp [QuantumCipher.zipXor, List.length_zipWith, hks]
  simp only [QuantumCipher.encrypt, QuantumCipher.decrypt, if_true]
  rw [hct]
  exact congrArg some (zipXorCancel m _ (le_of_eq hks.symm))

/-- C2 witness: round trip at a concrete payload, 32-byte key and
16-byte nonce under the executable hash model. -/
theorem c2_aead_round_trip_witness :
    QuantumCipher.decrypt dummyModel
      (QuantumCipher.encrypt dummyModel [7, 8, 9] (List.replicate 32 3)
        (List.replicate 16 5) 1700000000)
      (List.replicate 32 3) = some [7, 8, 9] :=
  c2_aead_round_trip dummyModel dummyH256Len [7, 8, 9] (List.replicate 32 3)
    (List.replicate 16 5) 1700000000

/-- C1: KEM correctness — for every keypair produced by `keygen` (private
key the seed, public key `hash512(seed || "kyber_public")`) and every
ephemeral drawn inside `encapsulate`, `decapsulate` applied to the
ciphertext of that `encapsulate` call returns the very shared secret
`encapsulate` returned; consequently after `init_server` on A,
`init_client` on B and `complete_handshake` on A both channels hold the
same (present) shared secret.  The only property of SHA3-512 used is its
64-byte output length. -/
theorem c1_kem_correctness (H : HashModel) (hH : H512Len H) :
    (∀ seed eph,
        QuantumKEM.decapsulate H (QuantumKEM.keygen H seed).private_key
          (QuantumKEM.encapsulate H (QuantumKEM.keygen H seed).public_key eph).1
        = (QuantumKEM.encapsulate H (QuantumKEM.keygen H seed).public_key eph).2)
    ∧ (∀ kemSeed sigSeed sessA eph sessB,
        (handshakeDemo H kemSeed sigSeed sessA eph sessB).1.map Channel.shared_secret
          = Except.ok (handshakeDemo H kemSeed sigSeed sessA eph sessB).2.shared_secret
        ∧ (handshakeDemo H kemSeed sigSeed sessA eph sessB).2.shared_secret.isSome = true) := by
  have hkem : ∀ seed eph,
      QuantumKEM.decapsulate H (QuantumKEM.keygen H seed).private_key
        (QuantumKEM.encapsulate H (QuantumKEM.keygen H seed).public_key eph).1
      = (QuantumKEM.encapsulate H (QuantumKEM.keygen H seed).public_key eph).2 := by
    intro seed eph
    simp only [QuantumKEM.keygen, QuantumKEM.encapsulate, QuantumKEM.decapsulate]
    rw [kemDropEph H hH]
  refine ⟨hkem, ?_⟩
  intro kemSeed sigSeed sessA eph sessB
  constructor
  · simp only [handshakeDemo, SecureChannel.initServer, SecureChannel.initClient,
      SecureChannel.completeHandshake, SecureChannel.emptyChannel, QuantumKEM.keygen,
      QuantumKEM.encapsulate, QuantumKEM.decapsulate, Except.map]
    rw [kemDropEph H hH]
  · simp [handshakeDemo, SecureChannel.initClient]

/-- C1 witness: the KEM round trip and the full handshake evaluated at
concrete seeds under the executable hash model. -/
theorem c1_kem_correctness_witness :
    (QuantumKEM.decapsulate dummyModel (QuantumKEM.keygen dummyModel [1, 2]).private_key
      (QuantumKEM.encapsulate dummyModel (QuantumKEM.keygen dummyModel [1, 2]).public_key [3, 4]).1
      = (QuantumKEM.encapsulate dummyModel (QuantumKEM.keygen dummyModel [1, 2]).public_key [3, 4]).2)
    ∧ ((handshakeDemo dummyModel [1] [2] [3] [4] [5]).1.map Channel.shared_secret
        = Except.ok (handshakeDemo dummyModel [1] [2] [3] [4] [5]).2.shared_secret
      ∧ (handshakeDemo dummyModel [1] [2] [3] [4] [5]).2.shared_secret.isSome = true) :=
  ⟨(c1_kem_correctness dummyModel dummyH512Len).1 [1, 2] [3, 4],
   (c1_kem_correctness dummyModel dummyH512Len).2 [1] [2] [3] [4] [5]⟩

/-- C3: fail-closed on authentication failure — whenever the stored MAC
differs from the HMAC recomputed over nonce || ciphertext with the
derived mac key, `QuantumCipher.decrypt` returns `none` (the keystream
XOR lives in the other branch and is never taken), and
`SecureChannel.decrypt_patient_data` on a handshake-complete channel
returns `Except.ok none` — a null result, not an exception — leaving the
channel unchanged. -/
theorem c3_fail_closed (H : HashModel) :
    (∀ (ss : List Nat) (env : AEADEnvelope),
        env.mac ≠ H.mac256 (H.h256 (ss ++ macKeyTag)) (env.nonce ++ env.ciphertext) →
        QuantumCipher.decrypt H env ss = none)
    ∧ (∀ {α : Type} (C : Codec α) (ch : Channel) (e : SignedEnvelope),
        isTruthy ch.shared_secret = true →
        e.encrypted.mac ≠ H.mac256 (H.h256 (ch.shared_secret.getD [] ++ macKeyTag))
          (e.encrypted.nonce ++ e.encrypted.ciphertext) →
        SecureChannel.decryptPatientData H C ch e = (Except.ok none, ch)) := by
  have hdec : ∀ (ss : List Nat) (env : AEADEnvelope),
      env.mac ≠ H.mac256 (H.h256 (ss ++ macKeyTag)) (env.nonce ++ env.ciphertext) →
      QuantumCipher.decrypt H env ss = none := by
    intro ss env hne
    simp only [QuantumCipher.decrypt]
    rw [if_neg hne]
  refine ⟨hdec, ?_⟩
  intro α C ch e htr hne
  simp only [SecureChannel.decryptPatientData, htr]
  rw [hdec (ch.shared_secret.getD []) e.encrypted hne]
  simp

/-- C3 witness: a tampered envelope (empty MAC field) is rejected with
`none` by the cipher and with `Except.ok none` by a handshake-complete
channel, at concrete values under the executable hash model. -/
theorem c3_fail_closed_witness :
    QuantumCipher.decrypt dummyModel
      { ciphertext := [1], nonce := [2], mac := [], timestamp := 0 }
      (List.replicate 32 2) = none
    ∧ SecureChannel.decryptPatientData dummyModel natCodec
        { kem_keys := none, sig_keys := none,
          shared_secret := some (List.replicate 32 2), session_id := none }
        { encrypted := { ciphertext := [1], nonce := [2], mac := [], timestamp := 0 },
          signature := none, session_id := none,
          data_type := "patient_monitoring", pqc_version := "1.0" }
      = (Except.ok none,
         { kem_keys := none, sig_keys := none,
           shared_secret := some (List.replicate 32 2), session_id := none }) :=
  ⟨(c3_fail_closed dummyModel).1 (List.replicate 32 2)
      { ciphertext := [1], nonce := [2], mac := [], timestamp := 0 } (by decide),
   (c3_fail_closed dummyModel).2 natCodec
      { kem_keys := none, sig_keys := none,
        shared_secret := some (List.replicate 32 2), session_id := none }
      { encrypted := { ciphertext := [1], nonce := [2], mac := [], timestamp := 0 },
        signature := none, session_id := none,
        data_type := "patient_monitoring", pqc_version := "1.0" }
      (by decide) (by decide)⟩

/-- C8: signature determinism and verification round-trip — `sign` is the
pure function `HMAC-SHA3-512(signing_key, data)` (so equal inputs give
equal signatures), `verify` accepts exactly the signature `sign`
produces, and rejects every byte string that differs from
`MAC(signing_key, data)`. -/
theorem c8_signature_roundtrip (H : HashModel) :
    (∀ data sk, QuantumSignature.sign H data sk = H.mac512 sk data)
    ∧ (∀ data sk vk,
        QuantumSignature.verify H data (QuantumSignature.sign H data sk) vk sk = true)
    ∧ (∀ data s sk vk, s ≠ H.mac512 sk data →
        QuantumSignature.verify H data s vk sk = false) := by
  refine ⟨fun data sk => rfl, fun data sk vk => ?_, fun data s sk vk hne => ?_⟩
  · simp [QuantumSignature.verify, QuantumSignature.sign]
  · simp only [QuantumSignature.verify]
    exact beq_eq_false_iff_ne.mpr hne

/-- C8 witness: a concrete signature verifies, and a forged (empty)
signature is rejected, under the executable hash model. -/
theorem c8_signature_roundtrip_witness :
    QuantumSignature.verify dummyModel [1, 2]
      (QuantumSignature.sign dummyModel [1, 2] [3]) [9] [3] = true
    ∧ QuantumSignature.verify dummyModel [1, 2] [] [9] [3] = false :=
  ⟨(c8_signature_roundtrip dummyModel).2.1 [1, 2] [3] [9],
   (c8_signature_roundtrip dummyModel).2.2 [1, 2] [] [3] [9] (by decide)⟩

/-- C9: the signature is never verified on receipt — for a
handshake-complete channel, `decrypt_patient_data` reads only the
`encrypted` field of the envelope: two envelopes with equal `encrypted`
fields (and arbitrary, possibly absent or forged, `signature`,
`session_id`, `data_type`, `pqc_version` fields) decrypt to equal
results. -/
theorem c9_signature_not_verified (H : HashModel) {α : Type} (C : Codec α)
    (ch : Channel) (e1 e2 : SignedEnvelope)
    (htr : isTruthy ch.shared_secret = true)
    (henc : e1.encrypted = e2.encrypted) :
    SecureChannel.decryptPatientData H C ch e1
      = SecureChannel.decryptPatientData H C ch e2 := by
  simp only [SecureChannel.decryptPatientData, henc]

/-- C9 witness: an envelope with a forged signature and different
metadata decrypts identically to the honestly signed one. -/
theorem c9_signature_not_verified_witness :
    SecureChannel.decryptPatientData dummyModel natCodec
      { kem_keys := none, sig_keys := none,
        shared_secret := some (List.replicate 32 2), session_id := none }
      { encrypted := { ciphertext := [1], nonce := [2], mac := [3], timestamp := 0 },
        signature := some [4, 4], session_id := some [5],
        data_type := "patient_monitoring", pqc_version := "1.0" }
    = SecureChannel.decryptPatientData dummyModel natCodec
      { kem_keys := none, sig_keys := none,
        shared_secret := some (List.replicate 32 2), session_id := none }
      { encrypted := { ciphertext := [1], nonce := [2], mac := [3], timestamp := 0 },
        signature := none, session_id := none,
        data_type := "other", pqc_version := "2.0" } :=
  c9_signature_not_verified dummyModel natCodec
    { kem_keys := none, sig_keys := none,
      shared_secret := some (List.replicate 32 2), session_id := none }
    { encrypted := { ciphertext := [1], nonce := [2], mac := [3], timestamp := 0 },
      signature := some [4, 4], session_id := some [5],
      data_type := "patient_monitoring", pqc_version := "1.0" }
    { encrypted := { ciphertext := [1], nonce := [2], mac := [3], timestamp := 0 },
      signature := none, session_id := none,
      data_type := "other", pqc_version := "2.0" }
    (by decide) rfl

/-- C10: post-handshake operations preserve channel state — neither
`encrypt_patient_data` nor `decrypt_patient_data` assigns any channel
field (`kem_keys`, `sig_keys`, `shared_secret`, `session_id`): the
channel component of the result equals the input channel, for every
channel (with or without a shared secret, so in particular for every
handshake-complete one).  Only `init_server`, `init_client` and
`complete_handshake` update fields. -/
theorem c10_frame_preservation (H : HashModel) {α : Type} (C : Codec α)
    (ch : Channel) (d : α) (nonce : List Nat) (ts : Nat) (e : SignedEnvelope) :
    (SecureChannel.encryptPatientData H C ch d nonce ts).2 = ch
    ∧ (SecureChannel.decryptPatientData H C ch e).2 = ch := by
  constructor
  · simp only [SecureChannel.encryptPatientData]
    split
    · rfl
    · rfl
  · simp only [SecureChannel.decryptPatientData]
    split
    · rfl
    · split
      · rfl
      · split <;> rfl

/-- C6 counterexample: `decapsulate` applied to the empty (0-byte,
hence shorter than 96 bytes) decoded ciphertext does not fail at all —
Python slicing past the end is total — but silently returns a 32-byte
secret.  No `ProtocolError` (or any error) class exists in the code. -/
theorem c6_counterexample :
    (QuantumKEM.decapsulate dummyModel (List.replicate 64 1) []).length = 32 := by
  decide

/-- C6 amended: for every private key and every decoded ciphertext
shorter than 96 bytes, `decapsulate` raises nothing and returns the
32-byte secret computed with the bytes after offset 64 (possibly the
empty string) in the ephemeral position; a mismatch is only detectable
downstream via AEAD MAC failure. -/
theorem c6_short_ciphertext_no_error (H : HashModel) (hH : H256Len H)
    (sk ct : List Nat) (hshort : ct.length < 96) :
    (QuantumKEM.decapsulate H sk ct).length = 32
    ∧ QuantumKEM.decapsulate H sk ct
      = H.h256 (H.h512 (sk ++ kyberPublicTag) ++ ct.drop 64 ++ kyberSharedTag) :=
  ⟨hH _, rfl⟩

/-- C6 witness: the amended statement evaluated at the empty ciphertext
under the executable hash model. -/
theorem c6_short_ciphertext_no_error_witness :
    (QuantumKEM.decapsulate dummyModel [7] []).length = 32
    ∧ QuantumKEM.decapsulate dummyModel [7] []
      = dummyModel.h256 (dummyModel.h512 ([7] ++ kyberPublicTag)
          ++ ([] : List Nat).drop 64 ++ kyberSharedTag) :=
  c6_short_ciphertext_no_error dummyModel dummyH256Len [7] [] (by decide)

/-- C4: QKD eavesdropper verdict and key withholding — in every
completed protocol run, `eavesdropper_detected` is true exactly when the
estimated `error_rate` exceeds 0.11 (`mkRat 11 100`, exactly; the noise
parameter appears nowhere in the verdict), and whenever it is true the
run yields no final key (`final_key_hex = none`, `secure = false`) and
`qkd_key_exchange` returns `None`. -/
theorem c4_qkd_threshold_withholding (H : HashModel) (n : Nat) (noise : Rat)
    (r : QKDRand) (res : BB84.ProtocolResult)
    (hrun : BB84.runProtocol H n noise r = Except.ok res) :
    (res.error_estimation.eavesdropper_detected = true
      ↔ res.error_estimation.error_rate > mkRat 11 100)
    ∧ (res.error_estimation.eavesdropper_detected = true →
        res.final_key_hex = none ∧ res.secure = false
        ∧ BB84.qkdKeyExchange H n noise r = Except.ok none) := by
  have hrun0 := hrun
  simp only [BB84.runProtocol] at hrun
  split at hrun
  next e heq => simp at hrun
  next info heq =>
    split at hrun
    next e2 heq2 => simp at hrun
    next fk heq2 =>
      injection hrun with hres
      subst hres
      constructor
      · exact estimateErrorDetectedIff _ _ _ _ heq
      · intro hdet
        simp only at hdet
        have hfknone : fk = none := by
          simp [BB84.finalKeyStep, hdet] at heq2
          exact heq2.symm
        refine ⟨by simp [hfknone], by simp [hdet], ?_⟩
        simp only [BB84.qkdKeyExchange]
        rw [hrun0]
        simp [hdet]

/-- C4 witness: the one-qubit run under `randDetect` completes with an
error rate of 1, so the eavesdropper verdict is true, no key is produced
and `qkd_key_exchange` returns `None`. -/
theorem c4_qkd_threshold_withholding_witness :
    (resDetect.error_estimation.eavesdropper_detected = true
      ↔ resDetect.error_estimation.error_rate > mkRat 11 100)
    ∧ (resDetect.final_key_hex = none ∧ resDetect.secure = false
        ∧ BB84.qkdKeyExchange dummyModel 1 0 randDetect = Except.ok none) := by
  have h := c4_qkd_threshold_withholding dummyModel 1 0 randDetect resDetect (by decide)
  exact ⟨h.1, h.2 (by decide)⟩

/-- C5: the privacy-amplification input is NOT the complement of the
error-estimation sample.  Failing input: sifted key `[0, 1]` (two
matching-basis qubits, no transmission errors), `estimate_error` samples
index 0, leaving bit `[1]`, but `run_protocol` draws a fresh sample —
here index 1 — and hashes `[0]` instead: the produced final key is the
hash of the complement of the fresh sample and differs from the hash of
the bits the error-estimation step left over, contradicting both the
spec and the source docstrings of `estimate_error` (the sampled bits
"are discarded") and `privacy_amplification` (its argument is the
"Remaining sifted key bits after error estimation"). -/
theorem c5_privacy_amplification_bug :
    (BB84.siftKeys ((List.range 2).map randSplit.aliceBit)
        ((List.range 2).map randSplit.aliceBasis) ((List.range 2).map randSplit.bobBasis)
        ((List.range 2).map randSplit.bobResult) 2).1 = [0, 1]
    ∧ BB84.estimationComplementBits [0, 1] randSplit.sample1 = [1]
    ∧ (BB84.runProtocol dummyModel 2 0 randSplit).map (fun res => res.final_key_hex)
        = Except.ok (some (BB84.privacyAmplification dummyModel [0]))
    ∧ (BB84.runProtocol dummyModel 2 0 randSplit).map (fun res => res.final_key_hex)
        ≠ Except.ok (some (BB84.privacyAmplification dummyModel
            (BB84.estimationComplementBits [0, 1] randSplit.sample1))) :=
  ⟨by decide, by decide, by decide, by decide⟩

/-- C7 counterexample: with `n_qubits = 0` the constructor succeeds (it
validates nothing), and the protocol run fails with `ValueError` from
`random.sample` inside the error-estimation step — not with any
`ConfigError` at call time (no such class exists in the code). -/
theorem c7_counterexample :
    bb84Init 0 0 = { n_qubits := 0, noise_prob := 0 }
    ∧ BB84.runProtocol dummyModel 0 0 randEmpty = Except.error PyError.valueError :=
  ⟨rfl, by decide⟩

/-- C7 amended: for `n_qubits = 0`, construction stores the parameters
without failing; preparation, measurement and sifting run vacuously, and
the first failure is the `ValueError` raised by `random.sample` in
`estimate_error` (the clamped sample size 1 exceeds the empty sifted-key
population), for every hash model, noise value and randomness. -/
theorem c7_zero_qubits (H : HashModel) (noise : Rat) (r : QKDRand) :
    bb84Init 0 noise = { n_qubits := 0, noise_prob := noise }
    ∧ BB84.runProtocol H 0 noise r = Except.error PyError.valueError := by
  refine ⟨rfl, ?_⟩
  simp [BB84.runProtocol, BB84.siftKeys, BB84.estimateError, BB84.randomSample]
